import Mathlib

/-!
# Verification of the cash_track RBAC / movement-service core

Shallow embedding, in Lean 4, of the core logic of the `cash_track`
repository: the CSV exporter (`src/lib/csv.ts`), the movement list /
create / update / delete API handlers (`src/unnamed/part_005`, the
revision exercised by the unit tests), the user PATCH/DELETE handler
(`src/pages/api/users/[id].ts`) and the role guard
(`src/lib/auth/index.ts`).

Modelling conventions:
* JavaScript strings are Lean `String`s (all inputs of interest are ASCII,
  where JS UTF-16 `length`/`charAt`/`trim` agree with Lean semantics).
* JavaScript numbers reaching zod's `z.number()` are modelled as exact
  rationals `ℚ`; arithmetic (`val * 100`) is exact rational arithmetic.
* Host functions (`Date.parse`, `z.string().datetime()`) are passed as
  explicit boolean-predicate parameters.
* The persistence collaborator is a pure state (lists of rows); a thrown
  persistence exception is modelled by an explicit outcome value.
-/

namespace CashTrack

/-- `Role` enum from `src/lib/auth/index.ts` (`'USER' | 'ADMIN'`). -/
inductive Role where
  | USER
  | ADMIN
deriving DecidableEq

/-- Movement type enum (`'INCOME' | 'EXPENSE'`). -/
inductive MvType where
  | INCOME
  | EXPENSE
deriving DecidableEq

/-- String rendering of a movement type, as serialized into the CSV. -/
def mvTypeToString : MvType → String
  | .INCOME => "INCOME"
  | .EXPENSE => "EXPENSE"

/-- The authenticated principal carried by the session
(`req.auth.user`): id plus session role. -/
structure Principal where
  id : String
  role : Role
deriving DecidableEq

/-- A movement row as stored by the persistence collaborator. -/
structure Movement where
  id : String
  concept : String
  amount : ℚ
  date : ℤ
  type : MvType
  userId : String
deriving DecidableEq

/-- A user row as stored by the persistence collaborator. -/
structure User where
  id : String
  name : Option String
  email : String
  role : Role
deriving DecidableEq

/-! ## CSV exporter (`src/lib/csv.ts`) -/

/-- The `user` projection taken by `MovementCsvInput`
(`{ name: string | null; email: string } | null`). -/
structure CsvUser where
  name : Option String
  email : String
deriving DecidableEq

/-- A JavaScript number as it comes out of the `Number(amount)` coercion
in `generateMovementsCsv`.  The embedding covers integral doubles (whose
`toString` is plain decimal notation) and the non-finite values; `nan`
also covers every `unknown` input that coerces to `NaN`. -/
inductive JsNum where
  | int (n : ℤ)
  | nan
  | posInf
  | negInf
deriving DecidableEq

/-- `Number(amount).toString()` on the modelled number domain. -/
def jsNumToString : JsNum → String
  | .int n => toString n
  | .nan => "NaN"
  | .posInf => "Infinity"
  | .negInf => "-Infinity"

/-- `MovementCsvInput` from `src/lib/csv.ts`.  The `date : Date` field is
represented by the string its `toISOString()` call produces (the
calendar rendering itself is host behaviour outside the claims). -/
structure MovementCsvInput where
  concept : String
  amount : JsNum
  dateIso : String
  type : MvType
  user : Option CsvUser
deriving DecidableEq

/-- `dangerousChars` from `sanitizeCsvValue`: `['=', '+', '-', '@', '|', '%']`. -/
def dangerousChars : List Char := ['=', '+', '-', '@', '|', '%']

/-- `sanitizeCsvValue` from `src/lib/csv.ts`: empty values returned as-is
(`if (!value) return value`); if `value.charAt(0)` is a dangerous
character, a literal single-quote is prepended. -/
def sanitizeCsvValue (value : String) : String :=
  match value.data with
  | [] => value
  | firstChar :: _ =>
      if dangerousChars.contains firstChar then "'" ++ value else value

/-- `replaceAll('"', '""')` on the character list of a field value. -/
def escapeQuotes : List Char → List Char
  | [] => []
  | c :: rest =>
      if c = '"' then '"' :: '"' :: escapeQuotes rest
      else c :: escapeQuotes rest

/-- `(value) => ` the string `"` + value with doubled quotes + `"`
(the closure applied with `.map` over the five fields of a row). -/
def csvQuote (value : String) : String :=
  "\"" ++ String.mk (escapeQuotes value.data) ++ "\""

/-- `user?.name ?? user?.email ?? 'Unknown User'`. -/
def csvUsername : Option CsvUser → String
  | none => "Unknown User"
  | some u =>
      match u.name with
      | some n => n
      | none => u.email

/-- The five field values of one CSV row, in source order, before
quoting: sanitized concept, `Number(amount).toString()`, the ISO date,
the type literal, sanitized username. -/
def movementCsvFields (m : MovementCsvInput) : List String :=
  [ sanitizeCsvValue m.concept,
    jsNumToString m.amount,
    m.dateIso,
    mvTypeToString m.type,
    sanitizeCsvValue (csvUsername m.user) ]

/-- One data row: each field quoted, then joined with `','`. -/
def movementCsvRow (m : MovementCsvInput) : String :=
  String.intercalate "," ((movementCsvFields m).map csvQuote)

/-- `['concept', 'amount', 'date', 'type', 'username'].join(',')`. -/
def csvHeader : String :=
  String.intercalate "," ["concept", "amount", "date", "type", "username"]

/-- `generateMovementsCsv` from `src/lib/csv.ts`: header row followed by
one row per movement, joined with `'\n'`. -/
def generateMovementsCsv (movements : List MovementCsvInput) : String :=
  String.intercalate "\n" (csvHeader :: movements.map movementCsvRow)

/-- Does the character sequence start with `needle`? -/
def seqStartsWith : List Char → List Char → Bool
  | [], _ => true
  | _ :: _, [] => false
  | a :: as, b :: bs => a = b && seqStartsWith as bs

/-- Does the character sequence contain `needle` as a contiguous run? -/
def seqContains (needle : List Char) : List Char → Bool
  | [] => seqStartsWith needle []
  | c :: rest => seqStartsWith needle (c :: rest) || seqContains needle rest

/-- `hay.includes(needle)` on the modelled strings. -/
def strIncludes (hay needle : String) : Bool :=
  seqContains needle.data hay.data

/-! ## The CSV exporter over its full declared input type

`MovementCsvInput` declares `amount : unknown` and `date : Date`, and
that type has inhabitants on which the exporter THROWS instead of
returning a string: `Number(amount)` raises a TypeError when `amount`
is a Symbol (`src/lib/csv.ts` line 32), and `date.toISOString()`
raises a RangeError when `date` is an Invalid Date such as
`new Date(NaN)` (line 33).  The record type below keeps both raising
paths; `MovementCsvInput` above is its non-raising fragment. -/

/-- A JavaScript number, as produced by a successful `Number(amount)`
coercion: integral doubles render in plain decimal notation; a finite
non-integral double is carried together with the string its
`toString()` produces (the host shortest-round-trip rendering, which
never throws); `NaN`, `Infinity` and `-Infinity` render as their
literal names. -/
inductive JsNumber where
  | int (n : ℤ)
  | nonInt (rendered : String)
  | nan
  | posInf
  | negInf
deriving DecidableEq

/-- `.toString()` on a successfully coerced number. -/
def jsNumberToString : JsNumber → String
  | .int n => toString n
  | .nonInt rendered => rendered
  | .nan => "NaN"
  | .posInf => "Infinity"
  | .negInf => "-Infinity"

/-- The `amount : unknown` field: either `Number(amount)` succeeds and
yields a number (plain objects, strings and `undefined` all coerce,
possibly to `NaN`), or the coercion itself throws — e.g. a Symbol, on
which `Number` raises a TypeError. -/
inductive AmountValue where
  | number (v : JsNumber)
  | throwsOnCoercion
deriving DecidableEq

/-- The `date : Date` field: a Date holds either a finite time value —
`toISOString()` then returns its ISO-8601 rendering — or the `NaN`
time value (`new Date(NaN)`, an Invalid Date), on which
`toISOString()` throws a RangeError. -/
inductive JsDate where
  | valid (isoString : String)
  | invalidDate
deriving DecidableEq

/-- The exceptions the exporter itself can raise. -/
inductive JsThrow where
  | typeError
  | rangeError
deriving DecidableEq

/-- A movement record over the FULL declared input type of
`generateMovementsCsv`, raising inhabitants included. -/
structure MovementCsvRecord where
  concept : String
  amount : AmountValue
  date : JsDate
  type : MvType
  user : Option CsvUser
deriving DecidableEq

/-- One data row over the full input type, in source evaluation order:
`Number(amount).toString()` first (line 32, may throw the TypeError),
then `date.toISOString()` (line 33, may throw the RangeError), then
the username fallback and the sanitize/quote/join pipeline. -/
def movementCsvRowE (m : MovementCsvRecord) : Except JsThrow String :=
  match m.amount with
  | .throwsOnCoercion => .error .typeError
  | .number v =>
      match m.date with
      | .invalidDate => .error .rangeError
      | .valid isoDate =>
          .ok (String.intercalate ","
            ([ sanitizeCsvValue m.concept,
               jsNumberToString v,
               isoDate,
               mvTypeToString m.type,
               sanitizeCsvValue (csvUsername m.user) ].map csvQuote))

/-- `movements.map(...)` with JavaScript exception semantics: the rows
are built in order and the first throw aborts the whole map. -/
def movementCsvRowsE : List MovementCsvRecord → Except JsThrow (List String)
  | [] => .ok []
  | m :: rest =>
      match movementCsvRowE m with
      | .error e => .error e
      | .ok row =>
          match movementCsvRowsE rest with
          | .error e => .error e
          | .ok rows => .ok (row :: rows)

/-- `generateMovementsCsv` over the full declared input type: map the
rows (propagating any throw), then join header and rows with `'\n'`. -/
def generateMovementsCsvE (movements : List MovementCsvRecord) :
    Except JsThrow String :=
  match movementCsvRowsE movements with
  | .error e => .error e
  | .ok rows => .ok (String.intercalate "\n" (csvHeader :: rows))

/-- The successful coercions of the restricted model, as numbers. -/
def liftJsNum : JsNum → JsNumber
  | .int n => .int n
  | .nan => .nan
  | .posInf => .posInf
  | .negInf => .negInf

/-- Embed a non-raising input of the restricted model into the full
input type. -/
def liftCsvInput (m : MovementCsvInput) : MovementCsvRecord :=
  { concept := m.concept, amount := .number (liftJsNum m.amount),
    date := .valid m.dateIso, type := m.type, user := m.user }

/-- Does this record avoid both raising paths? -/
def csvRecordSafe (m : MovementCsvRecord) : Bool :=
  (match m.amount with
   | .number _ => true
   | .throwsOnCoercion => false)
  && (match m.date with
      | .valid _ => true
      | .invalidDate => false)

/-! ## Payload values and the zod validation schemas (`src/unnamed/part_005`) -/

/-- A JSON value occupying one field of a request body.  `z.number()`
only accepts actual (non-NaN) numbers and `z.string()` only actual
strings; every other runtime type is collapsed into `other`. -/
inductive JVal where
  | str (s : String)
  | num (q : ℚ)
  | absent
  | other
deriving DecidableEq

/-- Request body for `POST /api/movements`. -/
structure CreateMovementBody where
  concept : JVal
  amount : JVal
  date : JVal
  type : JVal
deriving DecidableEq

/-- `/[<>]/.test(val)`. -/
def containsAngle (s : String) : Bool :=
  s.data.any (fun c => c = '<' || c = '>')

/-- JavaScript `String.prototype.trim()`: strip whitespace from both
ends (modelled structurally over the character list). -/
def jsTrim (s : String) : String :=
  String.mk
    (((s.data.dropWhile Char.isWhitespace).reverse.dropWhile
        Char.isWhitespace).reverse)

/-- The `concept` chain of `createMovementSchema` (and, identically, of
`updateMovementSchema`): `z.string().min(1).max(200).transform(trim)
.refine(no '<' or '>')`.  The `min`/`max` length checks run on the raw
string, BEFORE the trim transform; the angle-bracket refinement runs on
the trimmed output. -/
def validateConcept (v : JVal) : Option String :=
  match v with
  | .str s =>
      if 1 ≤ s.length then
        if s.length ≤ 200 then
          let t := jsTrim s
          if containsAngle t then none else some t
        else none
      else none
  | _ => none

/-- `Number.isSafeInteger` on the exact-rational model of the value. -/
def isSafeInteger (q : ℚ) : Bool :=
  q.den = 1 && q.num.natAbs ≤ 2 ^ 53 - 1

/-- The `amount` chain: `z.number().positive().max(999999999)
.refine(Number.isSafeInteger(val * 100))`. -/
def validateAmount (v : JVal) : Option ℚ :=
  match v with
  | .num q =>
      if 0 < q then
        if q ≤ 999999999 then
          if isSafeInteger (q * 100) then some q else none
        else none
      else none
  | _ => none

/-- The `date` chain of `createMovementSchema`:
`z.string().refine(!Number.isNaN(Date.parse(val)))`, with the host
`Date.parse` success predicate passed in as `dateParses`. -/
def validateDateCreate (dateParses : String → Bool) (v : JVal) : Option String :=
  match v with
  | .str s => if dateParses s then some s else none
  | _ => none

/-- The `type` chain: `z.enum(['INCOME', 'EXPENSE'])` (case-sensitive). -/
def validateType (v : JVal) : Option MvType :=
  match v with
  | .str s =>
      if s = "INCOME" then some MvType.INCOME
      else if s = "EXPENSE" then some MvType.EXPENSE
      else none
  | _ => none

/-- Output of a successful `createMovementSchema.safeParse`. -/
structure ValidCreate where
  concept : String
  amount : ℚ
  date : String
  type : MvType
deriving DecidableEq

/-- `createMovementSchema.safeParse(body)`: succeeds iff every field
validates, returning the transformed data. -/
def createMovementSchemaParse (dateParses : String → Bool)
    (b : CreateMovementBody) : Option ValidCreate :=
  match validateConcept b.concept, validateAmount b.amount,
        validateDateCreate dateParses b.date, validateType b.type with
  | some c, some a, some d, some t => some ⟨c, a, d, t⟩
  | _, _, _, _ => none

/-- Result of the `POST /api/movements` handler (`postHandler` in
`src/unnamed/part_005`, success path of the `try`): on validation
failure the 400 response is issued before any persistence call; on
success `prisma.movement.create` is called with the trimmed concept and
`userId` set to the authenticated principal's id. -/
inductive PostResult where
  | validationError
  | created (concept : String) (amount : ℚ) (type : MvType)
      (dateStr : String) (userId : String)
deriving DecidableEq

/-- `postHandler` from `src/unnamed/part_005` (validation and the data
passed to `prisma.movement.create`). -/
def postHandler (dateParses : String → Bool) (p : Principal)
    (b : CreateMovementBody) : PostResult :=
  match createMovementSchemaParse dateParses b with
  | none => .validationError
  | some v => .created (jsTrim v.concept) v.amount v.type v.date p.id

/-! ## Movement list handler (`getHandler` in `src/unnamed/part_005`) -/

/-- `Number(raw) || dflt` for a numeric query parameter: a missing or
non-numeric parameter coerces to `NaN` (falsy), and an explicit `0` is
also falsy, so both fall back to the default. -/
def parseQueryNum (v : Option ℤ) (dflt : ℤ) : ℤ :=
  match v with
  | none => dflt
  | some n => if n = 0 then dflt else n

/-- `Math.max(1, Number(page) || 1)`. -/
def pageNumberOf (page : Option ℤ) : ℤ :=
  max 1 (parseQueryNum page 1)

/-- `Math.min(100, Math.max(1, Number(limit) || 10))`. -/
def pageSizeOf (limit : Option ℤ) : ℤ :=
  min 100 (max 1 (parseQueryNum limit 10))

/-- The prisma `where` filter: `isAdmin ? undefined : { userId: id }`
applied to the movement table. -/
def movementsScoped (movements : List Movement) (p : Principal) :
    List Movement :=
  if p.role = Role.ADMIN then movements
  else movements.filter (fun m => m.userId == p.id)

/-- `orderBy: { date: 'desc' }`. -/
def byDateDesc : Movement → Movement → Prop :=
  fun a b => b.date ≤ a.date

instance : DecidableRel byDateDesc :=
  fun a b => inferInstanceAs (Decidable (b.date ≤ a.date))

/-- The `pagination` object of the list response. -/
structure Pagination where
  page : ℤ
  limit : ℤ
  total : ℕ
  totalPages : ℤ
deriving DecidableEq

/-- The body of the 200 response of `GET /api/movements`. -/
structure ListResponse where
  data : List Movement
  pagination : Pagination
deriving DecidableEq

/-- `getHandler` from `src/unnamed/part_005`: clamp the query
parameters, build the role-based row filter, run `count` and `findMany`
(ordered by date descending, with `skip`/`take`), and assemble the
response with `totalPages = Math.ceil(total / pageSize)`. -/
def getHandler (movements : List Movement) (p : Principal)
    (pageQ limitQ : Option ℤ) : ListResponse :=
  let pageNumber := pageNumberOf pageQ
  let pageSize := pageSizeOf limitQ
  let skip := (pageNumber - 1) * pageSize
  let scopedRows := movementsScoped movements p
  let total := scopedRows.length
  let sorted := List.insertionSort byDateDesc scopedRows
  { data := (sorted.drop skip.toNat).take pageSize.toNat,
    pagination :=
      { page := pageNumber, limit := pageSize, total := total,
        totalPages := Int.ceil ((total : ℚ) / (pageSize : ℚ)) } }

/-! ## Movement PATCH/DELETE handler (`src/unnamed/part_005`, by-id route) -/

/-- Outcome of a prisma lookup that may throw: either the query returned
(`ok`, possibly with no row) or the client raised. -/
inductive LookupResult (α : Type) where
  | ok (value : Option α)
  | error
deriving DecidableEq

/-- HTTP method of the incoming request. -/
inductive Method where
  | GET
  | POST
  | PATCH
  | DELETE
  | OTHER
deriving DecidableEq

/-- A persistence-layer exception: either a thrown `Error` carrying a
message, or a thrown value that is not an `Error` instance. -/
inductive PrismaFail where
  | withMessage (msg : String)
  | nonError
deriving DecidableEq

/-- The movement-table lookup `prisma.movement.findUnique({ where: { id } })`. -/
def findMovement (movements : List Movement) (mid : String) :
    Option Movement :=
  movements.find? (fun m => m.id == mid)

/-- The user-table role lookup issued inside the by-id handler and in
`withRole`: `prisma.user.findUnique({ where: { id }, select: { role } })`.
`userFindThrows` models the client raising. -/
def userRoleLookup (users : List User) (userFindThrows : Bool)
    (uid : String) : LookupResult Role :=
  if userFindThrows then .error
  else .ok ((users.find? (fun u => u.id == uid)).map (fun u => u.role))

/-- The `isAdmin` computation of the by-id movement handler (lines
643–653 of `src/unnamed/part_005`): on a successful query,
`dbUser?.role === 'ADMIN'` (a missing row gives `undefined === 'ADMIN'`,
i.e. `false`); on a thrown query, fall back to the session role. -/
def movementEffectiveIsAdmin (sessionRole : Role)
    (look : LookupResult Role) : Bool :=
  match look with
  | .ok dbRole => dbRole == some Role.ADMIN
  | .error => sessionRole == Role.ADMIN

/-- `canMutateMovement` as the spec states it (§4.1/§8): the effective
role is ADMIN, or the principal owns the movement. -/
def canMutateMovement (isAdmin : Bool) (p : Principal) (m : Movement) :
    Bool :=
  isAdmin || m.userId == p.id

/-- Request body for `PATCH /api/movements/[id]`. -/
structure UpdateMovementBody where
  concept : JVal
  amount : JVal
  date : JVal
  type : JVal
deriving DecidableEq

/-- Output of a successful `updateMovementSchema.safeParse`: the `data`
object assembled from the fields that were provided. -/
structure ValidUpdate where
  concept : Option String
  amount : Option ℚ
  date : Option String
  type : Option MvType
deriving DecidableEq

/-- Lift a per-field validator over an `.optional()` zod field: an
absent field parses to `none`; a present field must validate. -/
def validateOptional {α : Type} (validate : JVal → Option α) (v : JVal) :
    Option (Option α) :=
  match v with
  | .absent => some none
  | _ => (validate v).map some

/-- `updateMovementSchema.safeParse(body)`: every provided field is
validated with the same chains as the create schema, except that `date`
uses `z.string().datetime()` (predicate `isoDatetime`); the final
`.refine` requires at least one field to be present. -/
def updateMovementSchemaParse (isoDatetime : String → Bool)
    (b : UpdateMovementBody) : Option ValidUpdate :=
  match validateOptional validateConcept b.concept,
        validateOptional validateAmount b.amount,
        validateOptional (fun v =>
          match v with
          | .str s => if isoDatetime s then some s else none
          | _ => none) b.date,
        validateOptional validateType b.type with
  | some c, some a, some d, some t =>
      if c.isSome || a.isSome || d.isSome || t.isSome then
        some ⟨c, a, d, t⟩
      else none
  | _, _, _, _ => none

/-- Responses of `handlePatch`. -/
inductive PatchResponse where
  | validationError
  | ok
  | movementNotFound
  | internalError
deriving DecidableEq

/-- Responses of `handleDelete`. -/
inductive DeleteResponse where
  | noContent
  | movementNotFound
  | internalError
deriving DecidableEq

/-- The `catch` block of `handlePatch`: an `Error` whose message
includes `'Record to update not found'` becomes the 404, every other
exception becomes the 500. -/
def classifyPatchFail (e : PrismaFail) : PatchResponse :=
  match e with
  | .withMessage msg =>
      if strIncludes msg "Record to update not found" then
        .movementNotFound
      else .internalError
  | .nonError => .internalError

/-- The `catch` block of `handleDelete`: an `Error` whose message
includes `'Record to delete does not exist'` becomes the 404, every
other exception becomes the 500. -/
def classifyDeleteFail (e : PrismaFail) : DeleteResponse :=
  match e with
  | .withMessage msg =>
      if strIncludes msg "Record to delete does not exist" then
        .movementNotFound
      else .internalError
  | .nonError => .internalError

/-- Persistence mutations issued against the movement table. -/
inductive DbMutation where
  | update (mid : String) (data : ValidUpdate)
  | deleteMovement (mid : String)
deriving DecidableEq

/-- `handlePatch` from `src/unnamed/part_005`: validate the body (400 on
failure, before any persistence call), otherwise attempt
`prisma.movement.update`; `updErr` is the outcome of that call. -/
def handlePatch (isoDatetime : String → Bool) (mid : String)
    (b : UpdateMovementBody) (updErr : Option PrismaFail) :
    PatchResponse × List DbMutation :=
  match updateMovementSchemaParse isoDatetime b with
  | none => (.validationError, [])
  | some v =>
      match updErr with
      | none => (.ok, [.update mid v])
      | some e => (classifyPatchFail e, [.update mid v])

/-- `handleDelete` from `src/unnamed/part_005`: attempt
`prisma.movement.delete`; `delErr` is the outcome of that call. -/
def handleDelete (mid : String) (delErr : Option PrismaFail) :
    DeleteResponse × List DbMutation :=
  match delErr with
  | none => (.noContent, [.deleteMovement mid])
  | some e => (classifyDeleteFail e, [.deleteMovement mid])

/-- Responses of the by-id movement route, including the 401 issued by
the `withAuth` wrapper. -/
inductive ByIdResponse where
  | unauthorized
  | invalidId
  | methodNotAllowed
  | movementNotFound
  | forbiddenNotOwner
  | patch (r : PatchResponse)
  | delete (r : DeleteResponse)
deriving DecidableEq

/-- The by-id `handler` from `src/unnamed/part_005` (lines 616–673),
after `withAuth` has supplied a principal: id-validity check, method
check, `findUnique` existence check (404), the DB-backed admin check
with session fallback, the ownership check (403 `NOT_OWNER`), then
dispatch to `handlePatch`/`handleDelete`.  The second component is the
list of persistence mutations issued. -/
def byIdHandlerCore (movements : List Movement) (users : List User)
    (userFindThrows : Bool) (p : Principal) (method : Method)
    (idParam : Option String) (body : UpdateMovementBody)
    (isoDatetime : String → Bool) (updErr delErr : Option PrismaFail) :
    ByIdResponse × List DbMutation :=
  match idParam with
  | none => (.invalidId, [])
  | some mid =>
      if mid = "" then (.invalidId, [])
      else if ¬(method = .PATCH ∨ method = .DELETE) then
        (.methodNotAllowed, [])
      else
        match findMovement movements mid with
        | none => (.movementNotFound, [])
        | some movement =>
            let isAdmin := movementEffectiveIsAdmin p.role
              (userRoleLookup users userFindThrows p.id)
            let isOwner := movement.userId == p.id
            if ¬isAdmin ∧ ¬isOwner then (.forbiddenNotOwner, [])
            else if method = .PATCH then
              let r := handlePatch isoDatetime mid body updErr
              (.patch r.1, r.2)
            else
              let r := handleDelete mid delErr
              (.delete r.1, r.2)

/-- `withAuth(handler)` for the by-id movement route: a missing session
yields the 401 before the handler body runs. -/
def byIdHandler (movements : List Movement) (users : List User)
    (userFindThrows : Bool) (session : Option Principal)
    (method : Method) (idParam : Option String)
    (body : UpdateMovementBody) (isoDatetime : String → Bool)
    (updErr delErr : Option PrismaFail) :
    ByIdResponse × List DbMutation :=
  match session with
  | none => (.unauthorized, [])
  | some p =>
      byIdHandlerCore movements users userFindThrows p method idParam
        body isoDatetime updErr delErr

/-! ## `withRole` guard (`src/lib/auth/index.ts`, lines 101–133) -/

/-- The `effectiveRole` computation of `withRole`: on a successful
query, `dbUser?.role ?? req.auth.user.role` (a missing row falls back
to the session role); on a thrown query, the session role. -/
def withRoleEffective (sessionRole : Option Role)
    (look : LookupResult Role) : Option Role :=
  match look with
  | .ok dbRole =>
      match dbRole with
      | some r => some r
      | none => sessionRole
  | .error => sessionRole

/-- The guard decision of `withRole`: `true` means the wrapped handler
runs; `false` means the 403 `FORBIDDEN` response
(`!effectiveRole || !allowedRoles.includes(effectiveRole)`). -/
def withRoleDecision (allowedRoles : List Role)
    (sessionRole : Option Role) (look : LookupResult Role) : Bool :=
  match withRoleEffective sessionRole look with
  | none => false
  | some r => allowedRoles.contains r

/-! ## User PATCH/DELETE handler (`src/pages/api/users/[id].ts`) -/

/-- Request body for `PATCH /api/users/[id]`. -/
structure UpdateUserBody where
  name : JVal
  role : JVal
deriving DecidableEq

/-- Responses of the user PATCH branch. -/
inductive UserPatchResponse where
  | invalidRole
  | noValidFields
  | ok
  | userNotFound
deriving DecidableEq

/-- The `data` object assembled by the user PATCH branch. -/
structure UserPatchData where
  name : Option String
  role : Option Role
deriving DecidableEq

/-- The PATCH branch of `src/pages/api/users/[id].ts` (lines 149–190):
a string `name` is trimmed into `data`; a provided `role` must be
exactly `'USER'` or `'ADMIN'` (else 400); an empty `data` is a 400;
otherwise `prisma.user.update` is attempted and EVERY thrown
persistence error is answered with the 404 `'User not found'`
(the `catch` has no re-classification). -/
def userPatchHandler (b : UpdateUserBody) (updErr : Option PrismaFail) :
    UserPatchResponse :=
  let nameField : Option String :=
    match b.name with
    | .str s => some (jsTrim s)
    | _ => none
  match b.role with
  | .absent =>
      match nameField with
      | none => .noValidFields
      | some _ =>
          match updErr with
          | none => .ok
          | some _ => .userNotFound
  | .str s =>
      if s = "USER" ∨ s = "ADMIN" then
        match updErr with
        | none => .ok
        | some _ => .userNotFound
      else .invalidRole
  | _ => .invalidRole

/-- `prisma.user.count({ where: { role: 'ADMIN' } })`. -/
def adminCount (users : List User) : ℕ :=
  (users.filter (fun u => u.role == Role.ADMIN)).length

/-- Responses of the user DELETE branch. -/
inductive UserDeleteResponse where
  | userNotFound
  | lastAdmin
  | deleted
deriving DecidableEq

/-- The DELETE branch of `src/pages/api/users/[id].ts` (lines 192–219):
look the target up (404 if absent); if the target is an ADMIN and the
ADMIN count is ≤ 1, refuse with the 400 `'Cannot delete the last admin
user'` without deleting; otherwise delete the row and answer 204.  The
second component is the user table after the request. -/
def userDeleteHandler (users : List User) (targetId : String) :
    UserDeleteResponse × List User :=
  match users.find? (fun u => u.id == targetId) with
  | none => (.userNotFound, users)
  | some target =>
      if target.role = Role.ADMIN ∧ adminCount users ≤ 1 then
        (.lastAdmin, users)
      else
        (.deleted, users.eraseP (fun u => u.id == targetId))

/-! ## Concrete sample inputs used by the witnesses -/

/-- The formula-injection sample of the spec tests: concept `'=1+1'`,
with a user whose display name also starts with a formula character. -/
def csvInjectionExample : MovementCsvInput :=
  { concept := "=1+1", amount := .int 100,
    dateIso := "2025-01-01T00:00:00.000Z", type := .INCOME,
    user := some { name := some "@SUM(A1:A10)", email := "test@example.com" } }

/-- The quote-escaping sample: concept `Bonus "Q1"`, `user = null`. -/
def csvQuotesExample : MovementCsvInput :=
  { concept := "Bonus \"Q1\"", amount := .int 250,
    dateIso := "2025-03-01T00:00:00.000Z", type := .INCOME, user := none }

/-- A movement with a negative amount: its rendered amount starts with
`'-'` yet is not formula-sanitized (only concept/username are). -/
def csvNegAmountExample : MovementCsvInput :=
  { concept := "Refund", amount := .int (-5),
    dateIso := "2025-02-01T00:00:00.000Z", type := .EXPENSE,
    user := some { name := some "John Doe", email := "john@example.com" } }

/-- A movement whose `amount` is not coercible to a finite number. -/
def csvNanExample : MovementCsvInput :=
  { concept := "Mystery", amount := .nan,
    dateIso := "2025-01-01T00:00:00.000Z", type := .EXPENSE, user := none }

/-- A movement whose `date` is `new Date(NaN)`, an Invalid Date. -/
def invalidDateRecord : MovementCsvRecord :=
  { concept := "Salary", amount := .number (.int 1000),
    date := .invalidDate, type := .INCOME,
    user := some { name := some "Alice", email := "alice@example.com" } }

/-- A movement whose `amount` is a Symbol. -/
def symbolAmountRecord : MovementCsvRecord :=
  { concept := "Salary", amount := .throwsOnCoercion,
    date := .valid "2025-01-01T00:00:00.000Z", type := .INCOME,
    user := none }

/-- The NaN-amount movement, over the full input type. -/
def nanAmountRecord : MovementCsvRecord := liftCsvInput csvNanExample

/-- A stored movement owned by `"owner-1"`. -/
def sampleMovement : Movement :=
  { id := "movement-1", concept := "Original", amount := 100, date := 0,
    type := .INCOME, userId := "owner-1" }

/-- The owner principal of `sampleMovement`. -/
def ownerPrincipal : Principal := { id := "owner-1", role := Role.USER }

/-- A second user's movement, for scoping samples. -/
def otherMovement : Movement :=
  { id := "movement-2", concept := "Other", amount := 50, date := 5,
    type := .EXPENSE, userId := "user-2" }

/-- A lone ADMIN user row. -/
def soleAdmin : User :=
  { id := "admin-1", name := some "Admin", email := "admin@example.com",
    role := Role.ADMIN }

/-- A second ADMIN user row. -/
def secondAdmin : User :=
  { id := "admin-2", name := none, email := "admin2@example.com",
    role := Role.ADMIN }

/-- A plain USER row. -/
def plainUser : User :=
  { id := "user-1", name := some "User One", email := "user1@example.com",
    role := Role.USER }

/-- An empty update body (every field absent). -/
def emptyUpdateBody : UpdateMovementBody :=
  { concept := .absent, amount := .absent, date := .absent, type := .absent }

/-- An update body that changes only the concept. -/
def conceptUpdateBody : UpdateMovementBody :=
  { concept := .str "Updated", amount := .absent, date := .absent,
    type := .absent }

/-! ## Theorems -/

/-- Claim C4: the CSV exporter formula-sanitizes exactly the concept and
username fields — whenever a field's first character is one of
`= + - @ | %` a literal single quote is prepended, otherwise the value
is unchanged — and amount/date/type pass through unsanitized; every
field of every row is then double-quoted with embedded quotes doubled,
the doubling applied to the already-sanitized value.  In particular
concept `=1+1` yields the substring `"'=1+1"`, concept `Bonus "Q1"`
yields `"Bonus ""Q1"""`, and a null user yields the username field
`"Unknown User"`. -/
theorem spec_C4_csv_sanitization :
    (∀ (c : Char) (cs : List Char), dangerousChars.contains c = true →
        sanitizeCsvValue (String.mk (c :: cs)) = "'" ++ String.mk (c :: cs))
    ∧ (∀ (c : Char) (cs : List Char), dangerousChars.contains c = false →
        sanitizeCsvValue (String.mk (c :: cs)) = String.mk (c :: cs))
    ∧ (∀ m : MovementCsvInput,
        movementCsvRow m = String.intercalate ","
          [ csvQuote (sanitizeCsvValue m.concept),
            csvQuote (jsNumToString m.amount),
            csvQuote m.dateIso,
            csvQuote (mvTypeToString m.type),
            csvQuote (sanitizeCsvValue (csvUsername m.user)) ])
    ∧ (∀ v : String, csvQuote (sanitizeCsvValue v) =
        "\"" ++ String.mk (escapeQuotes (sanitizeCsvValue v).data) ++ "\"")
    ∧ strIncludes (generateMovementsCsv [csvInjectionExample]) "\"'=1+1\"" = true
    ∧ strIncludes (generateMovementsCsv [csvInjectionExample])
        "\"'@SUM(A1:A10)\"" = true
    ∧ strIncludes (generateMovementsCsv [csvQuotesExample])
        "\"Bonus \"\"Q1\"\"\"" = true
    ∧ strIncludes (generateMovementsCsv [csvQuotesExample])
        "\"Unknown User\"" = true
    ∧ (movementCsvFields csvNegAmountExample)[1]? = some "-5" := by
  refine ⟨?_, ?_, fun m => rfl, fun v => rfl, ?_, ?_, ?_, ?_, ?_⟩
  · intro c cs h
    simp only [sanitizeCsvValue, h, if_true]
  · intro c cs h
    simp only [sanitizeCsvValue, h]
    exact if_neg (by simp [h])
  · decide
  · decide
  · decide
  · decide
  · decide

/-- Witness for C4 at a concrete dangerous and a concrete safe first
character. -/
theorem spec_C4_witness :
    sanitizeCsvValue (String.mk ('=' :: "1+1".data)) =
      "'" ++ String.mk ('=' :: "1+1".data)
    ∧ sanitizeCsvValue (String.mk ('S' :: "alary".data)) =
      String.mk ('S' :: "alary".data) :=
  ⟨spec_C4_csv_sanitization.1 '=' "1+1".data (by decide),
   spec_C4_csv_sanitization.2.1 'S' "alary".data (by decide)⟩

/-- A lifted non-raising input produces exactly the restricted model's
row. -/
theorem csvRowE_lift (m : MovementCsvInput) :
    movementCsvRowE (liftCsvInput m) = .ok (movementCsvRow m) := by
  obtain ⟨c, a, d, t, u⟩ := m
  cases a <;> rfl

/-- Mapping the fallible row builder over lifted inputs succeeds with
the restricted model's rows. -/
theorem csvRowsE_map_lift (ms : List MovementCsvInput) :
    movementCsvRowsE (ms.map liftCsvInput) =
      .ok (ms.map movementCsvRow) := by
  induction ms with
  | nil => rfl
  | cons m rest ih => simp [movementCsvRowsE, csvRowE_lift, ih]

/-- A successful map produces one row per movement. -/
theorem csvRowsE_length (ms : List MovementCsvRecord)
    (rows : List String) (h : movementCsvRowsE ms = .ok rows) :
    rows.length = ms.length := by
  induction ms generalizing rows with
  | nil =>
      simp only [movementCsvRowsE] at h
      cases h
      rfl
  | cons m rest ih =>
      simp only [movementCsvRowsE] at h
      cases hr : movementCsvRowE m with
      | error e => rw [hr] at h; cases h
      | ok row =>
          rw [hr] at h
          cases hrs : movementCsvRowsE rest with
          | error e => rw [hrs] at h; cases h
          | ok rest' =>
              rw [hrs] at h
              cases h
              simpa using ih rest' hrs

/-- The row map succeeds on every list that avoids the raising
coercions. -/
theorem csvRowsE_ok_of_safe (ms : List MovementCsvRecord)
    (hsafe : ∀ m ∈ ms, csvRecordSafe m = true) :
    ∃ rows, movementCsvRowsE ms = .ok rows := by
  induction ms with
  | nil => exact ⟨[], rfl⟩
  | cons m rest ih =>
      have hm : csvRecordSafe m = true := hsafe m (by simp)
      obtain ⟨rows, hrows⟩ := ih (fun x hx => hsafe x (by simp [hx]))
      cases ha : m.amount with
      | throwsOnCoercion => simp [csvRecordSafe, ha] at hm
      | number v =>
          cases hd : m.date with
          | invalidDate => simp [csvRecordSafe, ha, hd] at hm
          | valid iso =>
              refine ⟨String.intercalate ","
                ([ sanitizeCsvValue m.concept, jsNumberToString v, iso,
                   mvTypeToString m.type,
                   sanitizeCsvValue (csvUsername m.user) ].map csvQuote) ::
                rows, ?_⟩
              simp [movementCsvRowsE, movementCsvRowE, ha, hd, hrows]

/-- Claim C10, counterexample: the exporter is NOT total over its
declared input type — a movement whose `date` is an Invalid Date makes
`toISOString()` throw a RangeError, and a Symbol `amount` makes
`Number()` throw a TypeError, so on these concrete inputs no string is
returned. -/
theorem spec_C10_counterexample :
    generateMovementsCsvE [invalidDateRecord] = .error JsThrow.rangeError
    ∧ generateMovementsCsvE [symbolAmountRecord] =
        .error JsThrow.typeError :=
  ⟨rfl, rfl⟩

/-- Claim C10 (amended): over the full declared input type the
exporter raises a TypeError when an amount's `Number()` coercion
throws (a Symbol) and a RangeError when a date is an Invalid Date; on
every input avoiding those two raising coercions it returns a string
without raising — the header plus exactly one row per movement, each
row the five quoted fields in order — and an amount coercing to a
non-finite number is serialized as the literal
`Number(amount).toString()` text (e.g. `NaN`) with its row still
emitted in full. -/
theorem spec_C10_csv_amended :
    (∀ m : MovementCsvRecord, m.amount = .throwsOnCoercion →
        movementCsvRowE m = .error JsThrow.typeError)
    ∧ (∀ (m : MovementCsvRecord) (v : JsNumber),
        m.amount = .number v → m.date = .invalidDate →
        movementCsvRowE m = .error JsThrow.rangeError)
    ∧ (∀ (m : MovementCsvRecord) (v : JsNumber) (iso : String),
        m.amount = .number v → m.date = .valid iso →
        movementCsvRowE m = .ok (String.intercalate ","
          ([ sanitizeCsvValue m.concept, jsNumberToString v, iso,
             mvTypeToString m.type,
             sanitizeCsvValue (csvUsername m.user) ].map csvQuote)))
    ∧ (∀ ms : List MovementCsvRecord,
        (∀ m ∈ ms, csvRecordSafe m = true) →
        ∃ s, generateMovementsCsvE ms = Except.ok s)
    ∧ (∀ (ms : List MovementCsvRecord) (s : String),
        generateMovementsCsvE ms = .ok s →
        ∃ rows, movementCsvRowsE ms = .ok rows
          ∧ rows.length = ms.length
          ∧ s = String.intercalate "\n" (csvHeader :: rows))
    ∧ (∀ ms : List MovementCsvInput,
        generateMovementsCsvE (ms.map liftCsvInput) =
          .ok (generateMovementsCsv ms))
    ∧ movementCsvRowE nanAmountRecord =
        .ok "\"Mystery\",\"NaN\",\"2025-01-01T00:00:00.000Z\",\"EXPENSE\",\"Unknown User\"" := by
  refine ⟨?_, ?_, ?_, ?_, ?_, ?_, rfl⟩
  · intro m h
    simp [movementCsvRowE, h]
  · intro m v ha hd
    simp [movementCsvRowE, ha, hd]
  · intro m v iso ha hd
    simp [movementCsvRowE, ha, hd]
  · intro ms hsafe
    obtain ⟨rows, hrows⟩ := csvRowsE_ok_of_safe ms hsafe
    exact ⟨String.intercalate "\n" (csvHeader :: rows),
      by simp [generateMovementsCsvE, hrows]⟩
  · intro ms s h
    cases hr : movementCsvRowsE ms with
    | error e => simp [generateMovementsCsvE, hr] at h
    | ok rows =>
        refine ⟨rows, rfl, csvRowsE_length ms rows hr, ?_⟩
        simp only [generateMovementsCsvE, hr] at h
        cases h
        rfl
  · intro ms
    simp [generateMovementsCsvE, csvRowsE_map_lift, generateMovementsCsv]

/-- Witness for C10 (amended): a Symbol amount raises the TypeError
and an Invalid Date raises the RangeError, at concrete records. -/
theorem spec_C10_amended_witness :
    movementCsvRowE symbolAmountRecord = .error JsThrow.typeError
    ∧ movementCsvRowE invalidDateRecord = .error JsThrow.rangeError :=
  ⟨spec_C10_csv_amended.1 symbolAmountRecord rfl,
   spec_C10_csv_amended.2.1 invalidDateRecord (.int 1000) rfl rfl⟩

/-- Claim C9: the `withRole` guard decides on the role freshly read
from the persistence layer when the lookup returns a row; when the
lookup throws OR returns no row it falls back to the session-carried
role, so a session still claiming ADMIN passes the ADMIN-only check
even when no matching user row exists. -/
theorem spec_C9_role_guard_fallback :
    ∀ (allowed : List Role) (sessionRole : Option Role) (r : Role),
      withRoleEffective sessionRole (.ok (some r)) = some r
      ∧ withRoleEffective sessionRole (.ok none) = sessionRole
      ∧ withRoleEffective sessionRole .error = sessionRole
      ∧ withRoleDecision allowed sessionRole (.ok (some r)) =
          allowed.contains r
      ∧ withRoleDecision [Role.ADMIN] (some Role.ADMIN) (.ok none) = true
      ∧ withRoleDecision [Role.ADMIN] (some Role.ADMIN) .error = true :=
  fun _ _ _ => ⟨rfl, rfl, rfl, rfl, rfl, rfl⟩

/-- A failed concept validation fails the whole create parse. -/
theorem createParse_none_of_concept (dp : String → Bool)
    (b : CreateMovementBody) (h : validateConcept b.concept = none) :
    createMovementSchemaParse dp b = none := by
  simp [createMovementSchemaParse, h]

/-- A failed amount validation fails the whole create parse. -/
theorem createParse_none_of_amount (dp : String → Bool)
    (b : CreateMovementBody) (h : validateAmount b.amount = none) :
    createMovementSchemaParse dp b = none := by
  cases hc : validateConcept b.concept <;>
    simp [createMovementSchemaParse, h, hc]

/-- A failed date validation fails the whole create parse. -/
theorem createParse_none_of_date (dp : String → Bool)
    (b : CreateMovementBody) (h : validateDateCreate dp b.date = none) :
    createMovementSchemaParse dp b = none := by
  cases hc : validateConcept b.concept <;>
    cases ha : validateAmount b.amount <;>
      simp [createMovementSchemaParse, h, hc, ha]

/-- A failed type validation fails the whole create parse. -/
theorem createParse_none_of_type (dp : String → Bool)
    (b : CreateMovementBody) (h : validateType b.type = none) :
    createMovementSchemaParse dp b = none := by
  cases hc : validateConcept b.concept <;>
    cases ha : validateAmount b.amount <;>
      cases hd : validateDateCreate dp b.date <;>
        simp [createMovementSchemaParse, h, hc, ha, hd]

/-- Claim C5, counterexample: the claim says a concept that is empty
AFTER trimming is rejected, but the zod chain checks `min(1)` on the
raw string BEFORE the trim transform, so the whitespace-only concept
`' '` — empty after trimming — passes validation and is persisted as
the empty string. -/
theorem spec_C5_counterexample :
    jsTrim " " = ""
    ∧ postHandler (fun s => s == "2025-01-01T00:00:00.000Z")
        { id := "admin-1", role := Role.ADMIN }
        { concept := .str " ", amount := .num 5,
          date := .str "2025-01-01T00:00:00.000Z", type := .str "INCOME" } =
      PostResult.created "" 5 MvType.INCOME "2025-01-01T00:00:00.000Z"
        "admin-1" := by
  refine ⟨by decide, ?_⟩
  have hmul : (5 : ℚ) * 100 = 500 := by norm_num
  have hsafe : isSafeInteger ((5 : ℚ) * 100) = true := by
    rw [hmul]; decide
  have ha : validateAmount (JVal.num 5) = some 5 := by
    simp [validateAmount, hsafe]
    norm_num
  have hc : validateConcept (JVal.str " ") = some "" := by decide
  have hd : validateDateCreate (fun s => s == "2025-01-01T00:00:00.000Z")
      (JVal.str "2025-01-01T00:00:00.000Z") =
      some "2025-01-01T00:00:00.000Z" := by decide
  have ht : validateType (JVal.str "INCOME") = some MvType.INCOME := by decide
  simp [postHandler, createMovementSchemaParse, ha, hc, hd, ht]
  decide

/-- Claim C5 (amended): for every create-movement payload, validation
rejects with a ValidationError — before any persistence call — any
payload where: concept is a string that is empty BEFORE trimming (raw
length 0), longer than 200 characters, or contains `<` or `>`; amount
is a non-numeric string, or a number that is ≤ 0, > 999,999,999, or
whose ×100 is not a safe integer; date is a string the host
`Date.parse` cannot parse; or type is a string other than the exact
case-sensitive `INCOME`/`EXPENSE` (in particular `income`). -/
theorem spec_C5_validation_amended :
    ∀ (dateParses : String → Bool) (p : Principal)
      (b : CreateMovementBody),
      (∀ s, b.concept = JVal.str s →
          (s.length = 0 ∨ 200 < s.length ∨ containsAngle (jsTrim s) = true) →
          postHandler dateParses p b = .validationError)
      ∧ (∀ q, b.amount = JVal.num q →
          (q ≤ 0 ∨ 999999999 < q ∨ isSafeInteger (q * 100) = false) →
          postHandler dateParses p b = .validationError)
      ∧ (∀ s, b.amount = JVal.str s →
          postHandler dateParses p b = .validationError)
      ∧ (∀ s, b.date = JVal.str s → dateParses s = false →
          postHandler dateParses p b = .validationError)
      ∧ (∀ s, b.type = JVal.str s → s ≠ "INCOME" → s ≠ "EXPENSE" →
          postHandler dateParses p b = .validationError) := by
  intro dp p b
  refine ⟨?_, ?_, ?_, ?_, ?_⟩
  · intro s hs hcond
    have hnone : validateConcept b.concept = none := by
      rcases hcond with h0 | h200 | hang
      · simp [validateConcept, hs, h0]
      · have hn : ¬ s.length ≤ 200 := by omega
        simp [validateConcept, hs, hn]
      · simp [validateConcept, hs, hang]
    simp [postHandler, createParse_none_of_concept dp b hnone]
  · intro q hq hcond
    have hnone : validateAmount b.amount = none := by
      rcases hcond with h0 | hmax | hsafe
      · have hn : ¬ (0 : ℚ) < q := not_lt.mpr h0
        simp [validateAmount, hq, hn]
      · have hn : ¬ q ≤ (999999999 : ℚ) := not_le.mpr hmax
        simp [validateAmount, hq, hn]
      · simp [validateAmount, hq, hsafe]
    simp [postHandler, createParse_none_of_amount dp b hnone]
  · intro s hs
    have hnone : validateAmount b.amount = none := by
      simp [validateAmount, hs]
    simp [postHandler, createParse_none_of_amount dp b hnone]
  · intro s hs hparse
    have hnone : validateDateCreate dp b.date = none := by
      simp [validateDateCreate, hs, hparse]
    simp [postHandler, createParse_none_of_date dp b hnone]
  · intro s hs hni hne
    have hnone : validateType b.type = none := by
      simp [validateType, hs, hni, hne]
    simp [postHandler, createParse_none_of_type dp b hnone]

/-- Witness for C5 (amended): the spec's concrete rejected payloads —
amount `0`, `-10`, the string `"abc"`, `999999999.01`, and type
`"income"` — all hit the ValidationError branch. -/
theorem spec_C5_witness :
    postHandler (fun _ => true) { id := "admin-1", role := Role.ADMIN }
      { concept := .str "Test", amount := .num 0,
        date := .str "2025-01-01T00:00:00.000Z", type := .str "INCOME" } =
      .validationError
    ∧ postHandler (fun _ => true) { id := "admin-1", role := Role.ADMIN }
      { concept := .str "Test", amount := .num (-10),
        date := .str "2025-01-01T00:00:00.000Z", type := .str "INCOME" } =
      .validationError
    ∧ postHandler (fun _ => true) { id := "admin-1", role := Role.ADMIN }
      { concept := .str "Test", amount := .str "abc",
        date := .str "2025-01-01T00:00:00.000Z", type := .str "INCOME" } =
      .validationError
    ∧ postHandler (fun _ => true) { id := "admin-1", role := Role.ADMIN }
      { concept := .str "Test", amount := .num (999999999.01 : ℚ),
        date := .str "2025-01-01T00:00:00.000Z", type := .str "INCOME" } =
      .validationError
    ∧ postHandler (fun _ => true) { id := "admin-1", role := Role.ADMIN }
      { concept := .str "Test", amount := .num 100,
        date := .str "2025-01-01T00:00:00.000Z", type := .str "income" } =
      .validationError := by
  refine ⟨?_, ?_, ?_, ?_, ?_⟩
  · exact ((spec_C5_validation_amended (fun _ => true) _ _).2.1 0 rfl
      (Or.inl (by norm_num)))
  · exact ((spec_C5_validation_amended (fun _ => true) _ _).2.1 (-10) rfl
      (Or.inl (by norm_num)))
  · exact ((spec_C5_validation_amended (fun _ => true) _ _).2.2.1 "abc" rfl)
  · exact ((spec_C5_validation_amended (fun _ => true) _ _).2.1
      (999999999.01 : ℚ) rfl (Or.inr (Or.inl (by norm_num))))
  · exact ((spec_C5_validation_amended (fun _ => true) _ _).2.2.2.2 "income"
      rfl (by decide) (by decide))

/-- `Math.max(1, ...)` keeps the page at least 1. -/
theorem one_le_pageNumberOf (q : Option ℤ) : 1 ≤ pageNumberOf q :=
  le_max_left 1 _

/-- The clamped page size is at least 1. -/
theorem one_le_pageSizeOf (q : Option ℤ) : 1 ≤ pageSizeOf q :=
  le_min (by norm_num) (le_max_left 1 _)

/-- The clamped page size is at most 100. -/
theorem pageSizeOf_le_100 (q : Option ℤ) : pageSizeOf q ≤ 100 :=
  min_le_left _ _

/-- `Math.ceil(total / limit)` bounds: the ceiling is the least number
of pages covering `total` rows at `limit` rows per page. -/
theorem ceilDiv_bounds (t : ℕ) (s : ℤ) (hs : 1 ≤ s) :
    (⌈(t : ℚ) / (s : ℚ)⌉ - 1) * s < (t : ℤ) ∧
    (t : ℤ) ≤ ⌈(t : ℚ) / (s : ℚ)⌉ * s := by
  have hs0 : (0 : ℚ) < (s : ℚ) := by
    exact_mod_cast lt_of_lt_of_le zero_lt_one hs
  constructor
  · have h1 : (⌈(t : ℚ) / (s : ℚ)⌉ : ℚ) - 1 < (t : ℚ) / (s : ℚ) := by
      have := Int.ceil_lt_add_one ((t : ℚ) / (s : ℚ))
      push_cast at this
      linarith
    have h2 : ((⌈(t : ℚ) / (s : ℚ)⌉ : ℚ) - 1) * (s : ℚ) < (t : ℚ) :=
      (lt_div_iff₀ hs0).mp h1
    exact_mod_cast h2
  · have h1 : (t : ℚ) / (s : ℚ) ≤ (⌈(t : ℚ) / (s : ℚ)⌉ : ℚ) :=
      Int.le_ceil _
    have h2 : (t : ℚ) ≤ (⌈(t : ℚ) / (s : ℚ)⌉ : ℚ) * (s : ℚ) :=
      (div_le_iff₀ hs0).mp h1
    exact_mod_cast h2

/-- Claim C6: the list handler clamps `page` to a minimum of 1 (a
request of `-5` gives page 1) and `limit` into 1..100 (a request of
`99999` gives 100), defaults are `page = 1`, `limit = 10`, out-of-range
values never produce an error (the handler is total and the clamped
values always satisfy the bounds), and the reported `totalPages` is
`ceil(total / limit)` — characterized by
`(totalPages - 1) * limit < total ≤ totalPages * limit`. -/
theorem spec_C6_pagination :
    ∀ (movements : List Movement) (p : Principal)
      (pageQ limitQ : Option ℤ),
      (getHandler movements p (some (-5)) limitQ).pagination.page = 1
      ∧ (getHandler movements p pageQ (some 99999)).pagination.limit = 100
      ∧ (getHandler movements p none none).pagination.page = 1
      ∧ (getHandler movements p none none).pagination.limit = 10
      ∧ 1 ≤ (getHandler movements p pageQ limitQ).pagination.page
      ∧ 1 ≤ (getHandler movements p pageQ limitQ).pagination.limit
      ∧ (getHandler movements p pageQ limitQ).pagination.limit ≤ 100
      ∧ (getHandler movements p pageQ limitQ).pagination.totalPages =
          ⌈((getHandler movements p pageQ limitQ).pagination.total : ℚ) /
            ((getHandler movements p pageQ limitQ).pagination.limit : ℚ)⌉
      ∧ ((getHandler movements p pageQ limitQ).pagination.totalPages - 1) *
          (getHandler movements p pageQ limitQ).pagination.limit <
          ((getHandler movements p pageQ limitQ).pagination.total : ℤ)
      ∧ ((getHandler movements p pageQ limitQ).pagination.total : ℤ) ≤
          (getHandler movements p pageQ limitQ).pagination.totalPages *
          (getHandler movements p pageQ limitQ).pagination.limit := by
  intro ms p pq lq
  have hceil := ceilDiv_bounds (movementsScoped ms p).length (pageSizeOf lq)
    (one_le_pageSizeOf lq)
  refine ⟨?_, ?_, ?_, ?_,
    one_le_pageNumberOf pq, one_le_pageSizeOf lq, pageSizeOf_le_100 lq,
    rfl, hceil.1, hceil.2⟩
  · show pageNumberOf (some (-5)) = 1
    decide
  · show pageSizeOf (some 99999) = 100
    decide
  · show pageNumberOf none = 1
    decide
  · show pageSizeOf none = 10
    decide

/-- Claim C2: listing movements as a USER scopes both the row set and
the total count to exactly the caller's own movements (the paged data
is drawn from a permutation of `filter (userId = p.id)` and every
returned row is owned by the caller), while an ADMIN gets no filter:
the scoped set is the full table and the count is the full count. -/
theorem spec_C2_list_scope :
    ∀ (movements : List Movement) (p : Principal)
      (pageQ limitQ : Option ℤ),
      (p.role = Role.USER →
          (getHandler movements p pageQ limitQ).pagination.total =
            (movements.filter (fun m => m.userId == p.id)).length
        ∧ (∀ m ∈ (getHandler movements p pageQ limitQ).data,
            m.userId = p.id)
        ∧ List.Perm
            (List.insertionSort byDateDesc (movementsScoped movements p))
            (movements.filter (fun m => m.userId == p.id)))
      ∧ (p.role = Role.ADMIN →
          movementsScoped movements p = movements
        ∧ (getHandler movements p pageQ limitQ).pagination.total =
            movements.length
        ∧ List.Perm
            (List.insertionSort byDateDesc (movementsScoped movements p))
            movements) := by
  intro ms p pq lq
  constructor
  · intro h
    have hscope : movementsScoped ms p =
        ms.filter (fun m => m.userId == p.id) := by
      simp [movementsScoped, h]
    refine ⟨?_, ?_, ?_⟩
    · show (movementsScoped ms p).length = _
      rw [hscope]
    · intro m hm
      have h1 : m ∈ List.insertionSort byDateDesc (movementsScoped ms p) :=
        List.mem_of_mem_drop (List.mem_of_mem_take hm)
      have h2 : m ∈ movementsScoped ms p :=
        (List.perm_insertionSort _ _).mem_iff.mp h1
      rw [hscope] at h2
      have h3 := (List.mem_filter.mp h2).2
      simpa using h3
    · rw [hscope]
      exact List.perm_insertionSort _ _
  · intro h
    have hscope : movementsScoped ms p = ms := by
      simp [movementsScoped, h]
    refine ⟨hscope, ?_, ?_⟩
    · show (movementsScoped ms p).length = _
      rw [hscope]
    · rw [hscope]
      exact List.perm_insertionSort _ _

/-- Witness for C2: with one owned and one foreign movement, the USER
total counts only the owned row, and the ADMIN total counts both. -/
theorem spec_C2_witness :
    ownerPrincipal.role = Role.USER
    ∧ (getHandler [sampleMovement, otherMovement] ownerPrincipal none
        none).pagination.total =
      ([sampleMovement, otherMovement].filter
        (fun m => m.userId == ownerPrincipal.id)).length
    ∧ (getHandler [sampleMovement, otherMovement]
        { id := "admin-1", role := Role.ADMIN } none none).pagination.total =
      ([sampleMovement, otherMovement] : List Movement).length :=
  ⟨rfl,
   ((spec_C2_list_scope [sampleMovement, otherMovement] ownerPrincipal
      none none).1 rfl).1,
   ((spec_C2_list_scope [sampleMovement, otherMovement]
      { id := "admin-1", role := Role.ADMIN } none none).2 rfl).2.1⟩

/-- Deleting one row removes at most one ADMIN from the count. -/
theorem adminCount_le_eraseP_add_one (l : List User) (q : User → Bool) :
    adminCount l ≤ adminCount (l.eraseP q) + 1 := by
  induction l with
  | nil => simp [adminCount]
  | cons u t ih =>
      by_cases hq : q u
      · rw [List.eraseP_cons_of_pos hq]
        simp only [adminCount, List.filter_cons]
        split <;> simp [adminCount]
      · rw [List.eraseP_cons_of_neg hq]
        simp only [adminCount, List.filter_cons]
        split <;> simpa [adminCount] using ih

/-- Deleting the looked-up row does not change the ADMIN count when
that row is not an ADMIN. -/
theorem adminCount_eraseP_of_find_not_admin (l : List User)
    (q : User → Bool) (t : User) (hf : l.find? q = some t)
    (ht : t.role ≠ Role.ADMIN) :
    adminCount (l.eraseP q) = adminCount l := by
  induction l with
  | nil => simp at hf
  | cons u rest ih =>
      by_cases hq : q u
      · rw [List.find?_cons_of_pos _ hq] at hf
        have hu : u = t := by injection hf
        rw [List.eraseP_cons_of_pos hq]
        have hfalse : (u.role == Role.ADMIN) = false := by
          subst hu; simpa using ht
        simp [adminCount, List.filter_cons, hfalse]
      · rw [List.find?_cons_of_neg _ (by simpa using hq)] at hf
        rw [List.eraseP_cons_of_neg hq]
        simp only [adminCount, List.filter_cons]
        split <;> simpa [adminCount] using ih hf

/-- Claim C3: for a user-delete request on an existing target, the
deletion is refused (with the domain error, issuing no delete) exactly
when the target is an ADMIN and at most one ADMIN exists; it proceeds
and succeeds when the target is a non-admin or when at least two ADMINs
exist; a missing target is a NotFound; and the delete path preserves
the at-least-one-ADMIN invariant in every case. -/
theorem spec_C3_last_admin_invariant :
    ∀ (users : List User) (tid : String),
      (∀ target, users.find? (fun u => u.id == tid) = some target →
          (target.role = Role.ADMIN → adminCount users ≤ 1 →
              userDeleteHandler users tid = (.lastAdmin, users))
        ∧ (target.role = Role.ADMIN → 2 ≤ adminCount users →
              userDeleteHandler users tid =
                (.deleted, users.eraseP (fun u => u.id == tid)))
        ∧ (target.role ≠ Role.ADMIN →
              userDeleteHandler users tid =
                (.deleted, users.eraseP (fun u => u.id == tid))
            ∧ adminCount (users.eraseP (fun u => u.id == tid)) =
                adminCount users))
      ∧ (users.find? (fun u => u.id == tid) = none →
          userDeleteHandler users tid = (.userNotFound, users))
      ∧ (1 ≤ adminCount users →
          1 ≤ adminCount (userDeleteHandler users tid).2) := by
  intro users tid
  refine ⟨?_, ?_, ?_⟩
  · intro target hfind
    refine ⟨?_, ?_, ?_⟩
    · intro hrole hcount
      simp [userDeleteHandler, hfind, hrole, hcount]
    · intro hrole hcount
      have hnc : ¬ adminCount users ≤ 1 := by omega
      simp [userDeleteHandler, hfind, hrole, hnc]
    · intro hrole
      exact ⟨by simp [userDeleteHandler, hfind, hrole],
        adminCount_eraseP_of_find_not_admin users _ target hfind hrole⟩
  · intro hfind
    simp [userDeleteHandler, hfind]
  · intro hpos
    cases hfind : users.find? (fun u => u.id == tid) with
    | none => simpa [userDeleteHandler, hfind] using hpos
    | some target =>
        by_cases hrole : target.role = Role.ADMIN
        · by_cases hcount : adminCount users ≤ 1
          · simpa [userDeleteHandler, hfind, hrole, hcount] using hpos
          · have hle := adminCount_le_eraseP_add_one users
              (fun u => u.id == tid)
            simp only [userDeleteHandler, hfind]
            rw [if_neg (by omega : ¬(target.role = Role.ADMIN ∧
              adminCount users ≤ 1))]
            simp only
            omega
        · have heq := adminCount_eraseP_of_find_not_admin users _ target
            hfind hrole
          simp only [userDeleteHandler, hfind]
          rw [if_neg (by simp [hrole] : ¬(target.role = Role.ADMIN ∧
            adminCount users ≤ 1))]
          simp only
          omega

/-- Witness for C3: deleting the sole ADMIN is refused; deleting an
ADMIN while two exist succeeds; deleting a plain USER succeeds. -/
theorem spec_C3_witness :
    userDeleteHandler [soleAdmin] "admin-1" = (.lastAdmin, [soleAdmin])
    ∧ userDeleteHandler [soleAdmin, secondAdmin] "admin-1" =
        (.deleted, [secondAdmin])
    ∧ userDeleteHandler [plainUser, soleAdmin] "user-1" =
        (.deleted, [soleAdmin]) := by
  refine ⟨?_, ?_, ?_⟩
  · exact (((spec_C3_last_admin_invariant [soleAdmin] "admin-1").1
      soleAdmin rfl).1 rfl (by decide))
  · have h := (((spec_C3_last_admin_invariant [soleAdmin, secondAdmin]
      "admin-1").1 soleAdmin rfl).2.1 rfl (by decide))
    rw [h]
    rfl
  · have h := ((((spec_C3_last_admin_invariant [plainUser, soleAdmin]
      "user-1").1 plainUser rfl).2.2 (by decide))).1
    rw [h]
    rfl

/-- Claim C1: in the PATCH/DELETE-by-id movement path, for an existing
movement the operation proceeds to the update/delete exactly when the
effective role (the DB-read role with session fallback) is ADMIN or the
principal owns the movement; otherwise the response is the 403
`NOT_OWNER` Forbidden and no persistence mutation is issued. -/
theorem spec_C1_mutate_movement_authz :
    ∀ (movements : List Movement) (users : List User) (thr : Bool)
      (p : Principal) (method : Method) (mid : String)
      (body : UpdateMovementBody) (isoDt : String → Bool)
      (updErr delErr : Option PrismaFail) (movement : Movement),
      (method = Method.PATCH ∨ method = Method.DELETE) →
      mid ≠ "" →
      findMovement movements mid = some movement →
      ((canMutateMovement
          (movementEffectiveIsAdmin p.role (userRoleLookup users thr p.id))
          p movement = true) ↔
        ((∃ r, (byIdHandler movements users thr (some p) method (some mid)
            body isoDt updErr delErr).1 = ByIdResponse.patch r)
         ∨ (∃ r, (byIdHandler movements users thr (some p) method
            (some mid) body isoDt updErr delErr).1 =
              ByIdResponse.delete r)))
      ∧ (canMutateMovement
          (movementEffectiveIsAdmin p.role (userRoleLookup users thr p.id))
          p movement = false →
          byIdHandler movements users thr (some p) method (some mid) body
            isoDt updErr delErr = (ByIdResponse.forbiddenNotOwner, [])) := by
  intro ms us thr p method mid body isoDt updErr delErr movement hmeth hmid
    hfind
  rcases hmeth with hm | hm <;> subst hm <;>
    cases hA : movementEffectiveIsAdmin p.role
      (userRoleLookup us thr p.id) <;>
    cases hO : (movement.userId == p.id) <;>
      simp [byIdHandler, byIdHandlerCore, hfind, hmid, canMutateMovement,
        hA, hO]

/-- Witness for C1: the owner of `sampleMovement` is allowed to PATCH
it (the handler proceeds to the update). -/
theorem spec_C1_witness :
    (∃ r, (byIdHandler [sampleMovement] [] false (some ownerPrincipal)
        Method.PATCH (some "movement-1") conceptUpdateBody (fun _ => false)
        none none).1 = ByIdResponse.patch r)
    ∨ (∃ r, (byIdHandler [sampleMovement] [] false (some ownerPrincipal)
        Method.PATCH (some "movement-1") conceptUpdateBody (fun _ => false)
        none none).1 = ByIdResponse.delete r) :=
  ((spec_C1_mutate_movement_authz [sampleMovement] [] false ownerPrincipal
      Method.PATCH "movement-1" conceptUpdateBody (fun _ => false) none
      none sampleMovement (Or.inl rfl) (by decide) rfl).1).mp (by decide)

/-- Claim C8: in the by-id movement path authentication is decided
before every other check (a missing session is a 401 regardless of the
request), and a missing target movement is answered NotFound before the
ownership check runs — a non-owner probing a missing id gets the 404,
never the 403. -/
theorem spec_C8_check_order :
    (∀ (movements : List Movement) (users : List User) (thr : Bool)
        (method : Method) (idParam : Option String)
        (body : UpdateMovementBody) (isoDt : String → Bool)
        (updErr delErr : Option PrismaFail),
        byIdHandler movements users thr none method idParam body isoDt
          updErr delErr = (ByIdResponse.unauthorized, []))
    ∧ (∀ (movements : List Movement) (users : List User) (thr : Bool)
        (p : Principal) (method : Method) (mid : String)
        (body : UpdateMovementBody) (isoDt : String → Bool)
        (updErr delErr : Option PrismaFail),
        (method = Method.PATCH ∨ method = Method.DELETE) →
        mid ≠ "" →
        findMovement movements mid = none →
        byIdHandler movements users thr (some p) method (some mid) body
          isoDt updErr delErr = (ByIdResponse.movementNotFound, [])) := by
  constructor
  · intro ms us thr method idParam body isoDt updErr delErr
    rfl
  · intro ms us thr p method mid body isoDt updErr delErr hmeth hmid hfind
    rcases hmeth with hm | hm <;> subst hm <;>
      simp [byIdHandler, byIdHandlerCore, hfind, hmid]

/-- Witness for C8: a non-owner (indeed an arbitrary USER) probing a
missing id receives NotFound, not Forbidden. -/
theorem spec_C8_witness :
    byIdHandler [] [] false (some ownerPrincipal) Method.DELETE
      (some "missing-id") emptyUpdateBody (fun _ => false) none none =
      (ByIdResponse.movementNotFound, []) :=
  spec_C8_check_order.2 [] [] false ownerPrincipal Method.DELETE
    "missing-id" emptyUpdateBody (fun _ => false) none none (Or.inr rfl)
    (by decide) rfl

/-- Claim C7, counterexample: on the user PATCH path a persistence
error that does NOT mean "record not found" (here a connection failure)
is still answered as NotFound, not as an InternalError — the `catch`
block of the user PATCH branch maps every exception to the 404. -/
theorem spec_C7_counterexample :
    userPatchHandler { name := .str "Bob", role := .absent }
        (some (.withMessage "Connection refused")) =
      UserPatchResponse.userNotFound
    ∧ strIncludes "Connection refused" "Record to update not found" =
        false := by
  exact ⟨rfl, by decide⟩

/-- Claim C7 (amended): on the movement PATCH/DELETE paths every
persistence exception is caught and re-classified — a message meaning
the record was absent becomes NotFound and every other exception
becomes InternalError — and raw errors are never returned (an erroring
update/delete always answers with one of the classified responses).
On the user PATCH path, however, EVERY persistence exception (not only
not-found ones) is re-classified to NotFound; it too never leaks a raw
error. -/
theorem spec_C7_error_reclassification_amended :
    (∀ msg, strIncludes msg "Record to update not found" = true →
        classifyPatchFail (.withMessage msg) = .movementNotFound)
    ∧ (∀ msg, strIncludes msg "Record to update not found" = false →
        classifyPatchFail (.withMessage msg) = .internalError)
    ∧ classifyPatchFail .nonError = .internalError
    ∧ (∀ msg, strIncludes msg "Record to delete does not exist" = true →
        classifyDeleteFail (.withMessage msg) = .movementNotFound)
    ∧ (∀ msg, strIncludes msg "Record to delete does not exist" = false →
        classifyDeleteFail (.withMessage msg) = .internalError)
    ∧ classifyDeleteFail .nonError = .internalError
    ∧ (∀ (b : UpdateMovementBody) (isoDt : String → Bool) (mid : String)
        (e : PrismaFail),
        (handlePatch isoDt mid b (some e)).1 = .validationError ∨
        (handlePatch isoDt mid b (some e)).1 = classifyPatchFail e)
    ∧ (∀ (mid : String) (e : PrismaFail),
        (handleDelete mid (some e)).1 = classifyDeleteFail e)
    ∧ (∀ (b : UpdateUserBody) (e : PrismaFail),
        userPatchHandler b none = .ok →
        userPatchHandler b (some e) = .userNotFound) := by
  refine ⟨?_, ?_, rfl, ?_, ?_, rfl, ?_, ?_, ?_⟩
  · intro msg h
    simp [classifyPatchFail, h]
  · intro msg h
    simp [classifyPatchFail, h]
  · intro msg h
    simp [classifyDeleteFail, h]
  · intro msg h
    simp [classifyDeleteFail, h]
  · intro b isoDt mid e
    cases hp : updateMovementSchemaParse isoDt b <;>
      simp [handlePatch, hp]
  · intro mid e
    rfl
  · intro b e h
    cases hr : b.role <;> simp only [userPatchHandler, hr] at h ⊢
    · -- role is a string
      split at h
      · split <;> rfl
      · exact absurd h (by simp)
    · -- role is a number: invalidRole in both
      exact absurd h (by simp)
    · -- role absent: name decides
      cases hn : b.name <;> simp only [hn] at h ⊢
      all_goals first
        | rfl
        | exact absurd h (by simp)
    · -- role is some other value
      exact absurd h (by simp)

/-- Witness for C7 (amended): a prisma "record to update not found"
message is re-classified to NotFound on the movement PATCH path, and a
valid user PATCH hitting a non-Error throw is answered NotFound. -/
theorem spec_C7_witness :
    classifyPatchFail
      (.withMessage "Invocation failed: Record to update not found.") =
      .movementNotFound
    ∧ userPatchHandler { name := .str "Bob", role := .absent }
        (some .nonError) = .userNotFound :=
  ⟨spec_C7_error_reclassification_amended.1
      "Invocation failed: Record to update not found." (by decide),
   spec_C7_error_reclassification_amended.2.2.2.2.2.2.2.2
      { name := .str "Bob", role := .absent } .nonError rfl⟩

end CashTrack
